import Mathlib

/-!
Verification of the optimistic action reconciler of the ComptalkApp client and
engagement-ranking computation, shallowly embedded from the TypeScript
sources (src/Scripts/Home/HomeComponents.tsx and the search screen in
src/unnamed/part_002).

State held in React component state is modelled as explicit record types;
`Set<string>` becomes `Finset String`; the asynchronous durable write is
modelled by passing the awaited outcome (`WriteResult`) as an argument, so
each handler splits into the state visible when the write is issued
(`...Pre`), whether a write is issued at all (`...IssuesWrite`), and the
final state once the awaited call resolves.
-/

namespace Comptalk

/-- A post as held in client component state: id, author, creation time
(an abstract integer timestamp measured in days for the ranking model),
the aggregated counters fetched from the service, and the derived
engagement score used on the trending screen. -/
structure Post where
  id : String
  user_id : String
  created_at : Int
  likes_count : Int
  shares_count : Int
  replies_count : Int
  engagement_score : Int
deriving DecidableEq

/-- Outcome of the awaited durable write issued by a toggle handler:
the insert resolved cleanly, resolved with a non-null `error` field, or
threw (landing in the catch block of the handler). -/
inductive WriteResult where
  | success
  | errorResult
  | thrown
deriving DecidableEq

/-- Control-flow outcome of a toggle handler, mirroring its early
returns: aborted for lack of an authenticated user, absorbed by the
membership guard, or ran to completion with the given write outcome. -/
inductive ToggleOutcome where
  | unauthenticated
  | alreadyDone
  | completed (res : WriteResult)
deriving DecidableEq

/-- Component state of the home feed screen: the two membership sets
(`userLikedPosts`, `userSharedPosts`, JavaScript `Set<string>` values)
and the `posts` array. -/
structure HomeState where
  userLikedPosts : Finset String
  userSharedPosts : Finset String
  posts : List Post
deriving DecidableEq

/-- The optimistic counter bump of handleLike and its inverse: the map
over posts that adds delta to likes_count of the targeted post and
leaves every other post unchanged. -/
def bumpLikes (postId : String) (delta : Int) (posts : List Post) : List Post :=
  posts.map fun post =>
    if post.id = postId then { post with likes_count := post.likes_count + delta } else post

/-- The same map for `shares_count`, used by handleShare. -/
def bumpShares (postId : String) (delta : Int) (posts : List Post) : List Post :=
  posts.map fun post =>
    if post.id = postId then { post with shares_count := post.shares_count + delta } else post

/-- handleLike, optimistic phase (HomeComponents.tsx lines 878-886):
mark the post as liked and bump its counter by +1. -/
def applyLikeOptimistic (postId : String) (s : HomeState) : HomeState :=
  { s with userLikedPosts := insert postId s.userLikedPosts,
           posts := bumpLikes postId 1 s.posts }

/-- handleLike, rollback (lines 896-907 and 913-924): remove the post
from the liked set and bump its counter by -1. -/
def rollbackLike (postId : String) (s : HomeState) : HomeState :=
  { s with userLikedPosts := s.userLikedPosts.erase postId,
           posts := bumpLikes postId (-1) s.posts }

/-- handleShare, optimistic phase (lines 941-948). -/
def applyShareOptimistic (postId : String) (s : HomeState) : HomeState :=
  { s with userSharedPosts := insert postId s.userSharedPosts,
           posts := bumpShares postId 1 s.posts }

/-- handleShare, rollback (lines 958-969 and 975-986). -/
def rollbackShare (postId : String) (s : HomeState) : HomeState :=
  { s with userSharedPosts := s.userSharedPosts.erase postId,
           posts := bumpShares postId (-1) s.posts }

/-- The guards of handleLike (lines 868-876): a current user must exist
and the post must not already be in the liked set. -/
def likeGuardPasses (uid : Option String) (postId : String) (s : HomeState) : Bool :=
  uid.isSome && !(postId ∈ s.userLikedPosts)

/-- The guards of handleShare (lines 930-938). -/
def shareGuardPasses (uid : Option String) (postId : String) (s : HomeState) : Bool :=
  uid.isSome && !(postId ∈ s.userSharedPosts)

/-- Local state visible at the moment handleLike issues its durable
insert into `likes` (line 890): the optimistic delta has already been
applied synchronously. -/
def handleLikePre (uid : Option String) (postId : String) (s : HomeState) : HomeState :=
  if likeGuardPasses uid postId s then applyLikeOptimistic postId s else s

/-- Whether handleLike reaches the durable write at all. -/
def handleLikeIssuesWrite (uid : Option String) (postId : String) (s : HomeState) : Bool :=
  likeGuardPasses uid postId s

/-- Full handleLike (lines 867-927), with the outcome of the awaited
insert passed in: on a non-null error result or a thrown exception the
optimistic update is reverted; on success nothing further happens. -/
def handleLike (uid : Option String) (postId : String) (res : WriteResult)
    (s : HomeState) : HomeState :=
  if likeGuardPasses uid postId s then
    match res with
    | .success => applyLikeOptimistic postId s
    | .errorResult => rollbackLike postId (applyLikeOptimistic postId s)
    | .thrown => rollbackLike postId (applyLikeOptimistic postId s)
  else s

/-- Control-flow outcome of handleLike: which early return fired. -/
def handleLikeOutcome (uid : Option String) (postId : String) (res : WriteResult)
    (s : HomeState) : ToggleOutcome :=
  match uid with
  | none => .unauthenticated
  | some _ =>
    if postId ∈ s.userLikedPosts then .alreadyDone else .completed res

/-- Local state visible at the moment handleShare issues its durable
insert into `shares` (line 952). -/
def handleSharePre (uid : Option String) (postId : String) (s : HomeState) : HomeState :=
  if shareGuardPasses uid postId s then applyShareOptimistic postId s else s

/-- Whether handleShare reaches the durable write at all. -/
def handleShareIssuesWrite (uid : Option String) (postId : String) (s : HomeState) : Bool :=
  shareGuardPasses uid postId s

/-- Full handleShare (lines 929-989); both the error-result branch and
the catch block revert the optimistic update. -/
def handleShare (uid : Option String) (postId : String) (res : WriteResult)
    (s : HomeState) : HomeState :=
  if shareGuardPasses uid postId s then
    match res with
    | .success => applyShareOptimistic postId s
    | .errorResult => rollbackShare postId (applyShareOptimistic postId s)
    | .thrown => rollbackShare postId (applyShareOptimistic postId s)
  else s

/-- Control-flow outcome of handleShare. -/
def handleShareOutcome (uid : Option String) (postId : String) (res : WriteResult)
    (s : HomeState) : ToggleOutcome :=
  match uid with
  | none => .unauthenticated
  | some _ =>
    if postId ∈ s.userSharedPosts then .alreadyDone else .completed res

/-- Component state of the search screen (src/unnamed/part_002): the
membership sets and the `filteredPosts` array the handlers update. -/
structure SearchState where
  userLikedPosts : Finset String
  userSharedPosts : Finset String
  filteredPosts : List Post
deriving DecidableEq

/-- Search-screen handleLike (part_002 lines 244-279): same guard and
optimistic update as the feed, but the catch block only logs — a thrown
exception does NOT revert the optimistic update; only a non-null error
result does. -/
def searchHandleLike (uid : Option String) (postId : String) (res : WriteResult)
    (s : SearchState) : SearchState :=
  if uid.isSome && !(postId ∈ s.userLikedPosts) then
    let opt : SearchState :=
      { s with userLikedPosts := insert postId s.userLikedPosts,
               filteredPosts := bumpLikes postId 1 s.filteredPosts }
    match res with
    | .success => opt
    | .errorResult =>
        { opt with userLikedPosts := opt.userLikedPosts.erase postId,
                   filteredPosts := bumpLikes postId (-1) opt.filteredPosts }
    | .thrown => opt
  else s

/-- Search-screen handleShare (part_002 lines 281-316); the catch block
likewise performs no rollback. -/
def searchHandleShare (uid : Option String) (postId : String) (res : WriteResult)
    (s : SearchState) : SearchState :=
  if uid.isSome && !(postId ∈ s.userSharedPosts) then
    let opt : SearchState :=
      { s with userSharedPosts := insert postId s.userSharedPosts,
               filteredPosts := bumpShares postId 1 s.filteredPosts }
    match res with
    | .success => opt
    | .errorResult =>
        { opt with userSharedPosts := opt.userSharedPosts.erase postId,
                   filteredPosts := bumpShares postId (-1) opt.filteredPosts }
    | .thrown => opt
  else s

/-- Control-flow outcome of the search-screen handleLike (part_002 line
245: `if (!currentUserId || userLikedPosts.has(postId)) return`). -/
def searchHandleLikeOutcome (uid : Option String) (postId : String) (res : WriteResult)
    (s : SearchState) : ToggleOutcome :=
  match uid with
  | none => .unauthenticated
  | some _ =>
    if postId ∈ s.userLikedPosts then .alreadyDone else .completed res

/-- Component state of the trending screen: the liked-post set and the
`trendingPosts` array (HomeComponents.tsx lines 1341-1345). -/
structure TrendingState where
  userLikedPosts : Finset String
  trendingPosts : List Post
deriving DecidableEq

/-- Trending handleLike, optimistic phase (lines 1461-1472): bump
`likes_count` by +1 and `engagement_score` by +3 on the targeted post. -/
def applyTrendLikeOptimistic (postId : String) (s : TrendingState) : TrendingState :=
  { s with userLikedPosts := insert postId s.userLikedPosts,
           trendingPosts := s.trendingPosts.map fun post =>
             if post.id = postId then
               { post with likes_count := post.likes_count + 1,
                           engagement_score := post.engagement_score + 3 }
             else post }

/-- Trending handleLike, rollback on a non-null error result
(lines 1480-1495): -1 on the counter and -3 on the score. -/
def rollbackTrendLike (postId : String) (s : TrendingState) : TrendingState :=
  { s with userLikedPosts := s.userLikedPosts.erase postId,
           trendingPosts := s.trendingPosts.map fun post =>
             if post.id = postId then
               { post with likes_count := post.likes_count - 1,
                           engagement_score := post.engagement_score - 3 }
             else post }

/-- Trending-screen handleLike (lines 1451-1501): the error-result
branch rolls back, but the catch block (lines 1498-1500) only logs —
a thrown exception leaves the optimistic mutation in place. -/
def trendHandleLike (uid : Option String) (postId : String) (res : WriteResult)
    (s : TrendingState) : TrendingState :=
  if uid.isSome && !(postId ∈ s.userLikedPosts) then
    match res with
    | .success => applyTrendLikeOptimistic postId s
    | .errorResult => rollbackTrendLike postId (applyTrendLikeOptimistic postId s)
    | .thrown => applyTrendLikeOptimistic postId s
  else s

/-- Control-flow outcome of the trending handleLike. -/
def trendHandleLikeOutcome (uid : Option String) (postId : String) (res : WriteResult)
    (s : TrendingState) : ToggleOutcome :=
  match uid with
  | none => .unauthenticated
  | some _ =>
    if postId ∈ s.userLikedPosts then .alreadyDone else .completed res

/-- Component state of the bookmarks screen: the `bookmarkedPosts`
array (HomeComponents.tsx around line 1970). -/
structure BookmarkState where
  bookmarkedPosts : List Post
deriving DecidableEq

/-- Local state visible at the moment removeBookmark issues its durable
delete (lines 2067-2071): no local mutation precedes the await, so the
pre-write state is the input state unchanged. -/
def removeBookmarkPre (uid : Option String) (confirm : Bool) (postId : String)
    (s : BookmarkState) : BookmarkState :=
  match uid, confirm, postId with
  | _, _, _ => s

/-- Whether removeBookmark reaches the durable delete: a current user
must exist (line 2055) and the user must press the destructive confirm
button of the Alert dialog (lines 2062-2065). -/
def removeBookmarkIssuesWrite (uid : Option String) (confirm : Bool) : Bool :=
  uid.isSome && confirm

/-- Full removeBookmark (lines 2054-2087): only after the durable
delete resolves without error is the post filtered out of local state
(line 2078); on an error result or a thrown exception the local list is
left untouched (there was nothing to roll back). -/
def removeBookmark (uid : Option String) (confirm : Bool) (postId : String)
    (res : WriteResult) (s : BookmarkState) : BookmarkState :=
  match uid with
  | none => s
  | some _ =>
    if confirm then
      match res with
      | .success =>
          { s with bookmarkedPosts := s.bookmarkedPosts.filter fun p => p.id ≠ postId }
      | .errorResult => s
      | .thrown => s
    else s

/-- The engagement-score formula of fetchTrendingPosts
(lines 1424-1427): likes*3 + replies*2 + shares*5, fixed weights. -/
def engagementScore (likes replies shares : Int) : Int :=
  likes * 3 + replies * 2 + shares * 5

/-- The trending time-range selector (line 1345). -/
inductive TimeRange where
  | day
  | week
  | month
deriving DecidableEq

/-- Window size in days per time range (lines 1374-1376): the default
is 7, `day` selects 1 and `month` selects 30. -/
def daysAgo : TimeRange → Int
  | .day => 1
  | .week => 7
  | .month => 30

/-- The window filter requested from the data service (lines 1378-1394):
keep exactly the candidates with `created_at >= now - daysAgo`, with
time measured in days. -/
def windowFilter (now days : Int) (posts : List Post) : List Post :=
  posts.filter fun p => now - days ≤ p.created_at

/-- Scoring pass (lines 1407-1437): attach the engagement score computed
from the raw counters of each post. -/
def scorePosts (posts : List Post) : List Post :=
  posts.map fun p =>
    { p with engagement_score :=
        engagementScore p.likes_count p.replies_count p.shares_count }

/-- The descending comparison used by the sort at line 1440
(`(a, b) => b.engagement_score - a.engagement_score`): a precedes b
when the score of b does not exceed the score of a. -/
def trendGE (a b : Post) : Prop :=
  b.engagement_score ≤ a.engagement_score

instance : DecidableRel trendGE := fun a b =>
  inferInstanceAs (Decidable (b.engagement_score ≤ a.engagement_score))

instance : IsTotal Post trendGE :=
  ⟨fun a b => le_total b.engagement_score a.engagement_score⟩

instance : IsTrans Post trendGE :=
  ⟨fun _ _ _ hab hbc => le_trans hbc hab⟩

/-- Sort stage of fetchTrendingPosts, modelled as the stable sort by
descending engagement score (JavaScript `Array.prototype.sort` is
specified stable; a stable sort under a total transitive comparison is
unique, so insertion sort is an exact model). -/
def sortByEngagement (posts : List Post) : List Post :=
  posts.insertionSort trendGE

/-- The ranking computation of fetchTrendingPosts (lines 1371-1443):
window-filter the candidates, score each survivor, sort descending by
engagement score, and truncate with `.slice(0, 20)`. -/
def fetchTrendingRank (now : Int) (tr : TimeRange) (candidates : List Post) : List Post :=
  ((sortByEngagement (scorePosts (windowFilter now (daysAgo tr) candidates))).take 20)

/-- The per-post score invariant of the trending list: the displayed
engagement score agrees with the fixed-weight formula over the
displayed counters. -/
def scoreInvariant (posts : List Post) : Prop :=
  ∀ p ∈ posts, p.engagement_score =
    engagementScore p.likes_count p.replies_count p.shares_count

instance (posts : List Post) : Decidable (scoreInvariant posts) :=
  inferInstanceAs (Decidable (∀ p ∈ posts, p.engagement_score =
    engagementScore p.likes_count p.replies_count p.shares_count))

/-- Example post A of the ranking example in the spec: likes=10, replies=2,
shares=1. -/
def examplePostA : Post :=
  { id := "A", user_id := "ua", created_at := 100, likes_count := 10,
    shares_count := 1, replies_count := 2, engagement_score := 0 }

/-- Example post B of the ranking example in the spec: likes=2, replies=0,
shares=10. -/
def examplePostB : Post :=
  { id := "B", user_id := "ub", created_at := 100, likes_count := 2,
    shares_count := 10, replies_count := 0, engagement_score := 0 }

/-- Example post C of the ranking example in the spec: all counters zero. -/
def examplePostC : Post :=
  { id := "C", user_id := "uc", created_at := 100, likes_count := 0,
    shares_count := 0, replies_count := 0, engagement_score := 0 }

/-- A post created 10 days before `now`, for the window-filter example. -/
def tenDayOldPost (now : Int) : Post :=
  { id := "old", user_id := "uo", created_at := now - 10, likes_count := 0,
    shares_count := 0, replies_count := 0, engagement_score := 0 }

/-- A sample post used by concrete witness states. -/
def samplePost : Post :=
  { id := "p1", user_id := "ua", created_at := 0, likes_count := 4,
    shares_count := 2, replies_count := 1, engagement_score := 0 }

/-- A concrete home-feed state: nothing liked or shared yet, one post. -/
def sampleHome : HomeState :=
  { userLikedPosts := ∅, userSharedPosts := ∅, posts := [samplePost] }

/-- A concrete bookmarks-screen state holding the sample post. -/
def sampleBookmarks : BookmarkState :=
  { bookmarkedPosts := [samplePost] }

/-- A concrete trending-screen state whose one displayed post satisfies
the score invariant (score 24 = 4*3 + 1*2 + 2*5). -/
def sampleTrending : TrendingState :=
  { userLikedPosts := ∅,
    trendingPosts := [{ samplePost with engagement_score := 24 }] }

/-- A concrete search-screen state. -/
def sampleSearch : SearchState :=
  { userLikedPosts := ∅, userSharedPosts := ∅, filteredPosts := [samplePost] }

/-- First of a pair of distinct posts with equal engagement score 5,
for the stability witness. -/
def tiedPostA : Post :=
  { id := "tA", user_id := "u1", created_at := 100, likes_count := 1,
    shares_count := 0, replies_count := 1, engagement_score := 0 }

/-- Second of the tied pair, score 5 by a different counter mix. -/
def tiedPostB : Post :=
  { id := "tB", user_id := "u2", created_at := 100, likes_count := 0,
    shares_count := 1, replies_count := 0, engagement_score := 0 }

/-- Filler candidate inside the ranking window. -/
def fillerPost : Post :=
  { id := "f", user_id := "uf", created_at := 100, likes_count := 2,
    shares_count := 0, replies_count := 0, engagement_score := 0 }

/-- Twenty-five qualifying candidates, beginning with the tied pair. -/
def qualifying25 : List Post :=
  tiedPostA :: tiedPostB :: List.replicate 23 fillerPost

/-- The post tiedPostA as it appears after the scoring pass. -/
def scoredTiedA : Post := { tiedPostA with engagement_score := 5 }

/-- The post tiedPostB as it appears after the scoring pass. -/
def scoredTiedB : Post := { tiedPostB with engagement_score := 5 }

/-- The post examplePostB as it appears after the scoring pass. -/
def scoredExampleB : Post := { examplePostB with engagement_score := 56 }

lemma bumpLikes_bumpLikes (postId : String) (posts : List Post) :
    bumpLikes postId (-1) (bumpLikes postId 1 posts) = posts := by
  simp only [bumpLikes, List.map_map]
  conv_rhs => rw [← List.map_id posts]
  apply List.map_congr_left
  intro post _
  by_cases h : post.id = postId
  · subst h
    simp [Function.comp]
  · simp [h, Function.comp]

lemma bumpShares_bumpShares (postId : String) (posts : List Post) :
    bumpShares postId (-1) (bumpShares postId 1 posts) = posts := by
  simp only [bumpShares, List.map_map]
  conv_rhs => rw [← List.map_id posts]
  apply List.map_congr_left
  intro post _
  by_cases h : post.id = postId
  · subst h
    simp [Function.comp]
  · simp [h, Function.comp]

lemma rollbackLike_applyLikeOptimistic (postId : String) (s : HomeState)
    (h : postId ∉ s.userLikedPosts) :
    rollbackLike postId (applyLikeOptimistic postId s) = s := by
  simp [rollbackLike, applyLikeOptimistic, Finset.erase_insert h,
    bumpLikes_bumpLikes]

lemma rollbackShare_applyShareOptimistic (postId : String) (s : HomeState)
    (h : postId ∉ s.userSharedPosts) :
    rollbackShare postId (applyShareOptimistic postId s) = s := by
  simp [rollbackShare, applyShareOptimistic, Finset.erase_insert h,
    bumpShares_bumpShares]

lemma likeGuard_not_mem {uid : Option String} {postId : String} {s : HomeState}
    (h : likeGuardPasses uid postId s = true) : postId ∉ s.userLikedPosts := by
  simp [likeGuardPasses] at h
  exact h.2

lemma shareGuard_not_mem {uid : Option String} {postId : String} {s : HomeState}
    (h : shareGuardPasses uid postId s = true) : postId ∉ s.userSharedPosts := by
  simp [shareGuardPasses] at h
  exact h.2

lemma handleLike_fail (uid : Option String) (postId : String) (res : WriteResult)
    (s : HomeState) (hfail : res ≠ .success) : handleLike uid postId res s = s := by
  by_cases hg : likeGuardPasses uid postId s = true
  · cases res with
    | success => exact absurd rfl hfail
    | errorResult =>
        simp [handleLike, hg, rollbackLike_applyLikeOptimistic postId s (likeGuard_not_mem hg)]
    | thrown =>
        simp [handleLike, hg, rollbackLike_applyLikeOptimistic postId s (likeGuard_not_mem hg)]
  · simp [handleLike, hg]

lemma handleShare_fail (uid : Option String) (postId : String) (res : WriteResult)
    (s : HomeState) (hfail : res ≠ .success) : handleShare uid postId res s = s := by
  by_cases hg : shareGuardPasses uid postId s = true
  · cases res with
    | success => exact absurd rfl hfail
    | errorResult =>
        simp [handleShare, hg, rollbackShare_applyShareOptimistic postId s (shareGuard_not_mem hg)]
    | thrown =>
        simp [handleShare, hg, rollbackShare_applyShareOptimistic postId s (shareGuard_not_mem hg)]
  · simp [handleShare, hg]

lemma trendBump_trendBump (postId : String) (posts : List Post) :
    ((posts.map fun post =>
        if post.id = postId then
          { post with likes_count := post.likes_count + 1,
                      engagement_score := post.engagement_score + 3 }
        else post).map fun post =>
        if post.id = postId then
          { post with likes_count := post.likes_count - 1,
                      engagement_score := post.engagement_score - 3 }
        else post) = posts := by
  simp only [List.map_map]
  conv_rhs => rw [← List.map_id posts]
  apply List.map_congr_left
  intro post _
  by_cases h : post.id = postId
  · subst h
    simp [Function.comp]
  · simp [h, Function.comp]

lemma rollbackTrendLike_applyTrendLikeOptimistic (postId : String) (s : TrendingState)
    (h : postId ∉ s.userLikedPosts) :
    rollbackTrendLike postId (applyTrendLikeOptimistic postId s) = s := by
  simp only [rollbackTrendLike, applyTrendLikeOptimistic]
  rw [trendBump_trendBump, Finset.erase_insert h]

lemma trendHandleLike_error (uid : Option String) (postId : String) (t : TrendingState) :
    trendHandleLike uid postId .errorResult t = t := by
  by_cases hg : (uid.isSome && !(postId ∈ t.userLikedPosts)) = true
  · have hmem : postId ∉ t.userLikedPosts := by
      simp at hg
      exact hg.2
    simp [trendHandleLike, hg, rollbackTrendLike_applyTrendLikeOptimistic postId t hmem]
  · simp [trendHandleLike, hg]

lemma searchHandleLike_error (uid : Option String) (postId : String) (q : SearchState) :
    searchHandleLike uid postId .errorResult q = q := by
  by_cases hg : (uid.isSome && !(postId ∈ q.userLikedPosts)) = true
  · have hmem : postId ∉ q.userLikedPosts := by
      simp at hg
      exact hg.2
    simp [searchHandleLike, hg, Finset.erase_insert hmem, bumpLikes_bumpLikes]
  · simp [searchHandleLike, hg]

lemma searchHandleShare_error (uid : Option String) (postId : String) (q : SearchState) :
    searchHandleShare uid postId .errorResult q = q := by
  by_cases hg : (uid.isSome && !(postId ∈ q.userSharedPosts)) = true
  · have hmem : postId ∉ q.userSharedPosts := by
      simp at hg
      exact hg.2
    simp [searchHandleShare, hg, Finset.erase_insert hmem, bumpShares_bumpShares]
  · simp [searchHandleShare, hg]

lemma applyTrend_invariant (postId : String) (s : TrendingState)
    (hinv : scoreInvariant s.trendingPosts) :
    scoreInvariant (applyTrendLikeOptimistic postId s).trendingPosts ∧
    List.Forall₂ (fun old new => old.id ≠ postId → new = old)
      s.trendingPosts (applyTrendLikeOptimistic postId s).trendingPosts := by
  constructor
  · intro p hp
    simp only [applyTrendLikeOptimistic, List.mem_map] at hp
    obtain ⟨q, hq, rfl⟩ := hp
    by_cases h : q.id = postId
    · have hq2 := hinv q hq
      simp only [engagementScore] at hq2 ⊢
      simp [h]
      omega
    · simpa [h] using hinv q hq
  · simp only [applyTrendLikeOptimistic]
    rw [List.forall₂_map_right_iff, List.forall₂_same]
    intro x _ hx
    simp [hx]

/-- C1: if the durable write issued by a feed toggle (like or share)
fails — error result or thrown exception — the post-failure local state
equals the pre-call state exactly (membership set and counters are
restored), and the action is retryable: a retry behaves exactly like a
fresh call on the pre-call state. -/
theorem rollback_restores_precall_state (uid : Option String) (postId : String)
    (res : WriteResult) (s : HomeState) (hfail : res ≠ .success) :
    handleLike uid postId res s = s ∧ handleShare uid postId res s = s ∧
    handleLike uid postId .success (handleLike uid postId res s) =
      handleLike uid postId .success s ∧
    handleShare uid postId .success (handleShare uid postId res s) =
      handleShare uid postId .success s := by
  have hl := handleLike_fail uid postId res s hfail
  have hs := handleShare_fail uid postId res s hfail
  exact ⟨hl, hs, by rw [hl], by rw [hs]⟩

/-- Witness for the rollback theorem at a concrete input. -/
theorem rollback_restores_precall_state_witness :
    (WriteResult.errorResult ≠ WriteResult.success) ∧
    (handleLike (some "u") "p1" .errorResult sampleHome = sampleHome ∧
     handleShare (some "u") "p1" .errorResult sampleHome = sampleHome ∧
     handleLike (some "u") "p1" .success
        (handleLike (some "u") "p1" .errorResult sampleHome) =
       handleLike (some "u") "p1" .success sampleHome ∧
     handleShare (some "u") "p1" .success
        (handleShare (some "u") "p1" .errorResult sampleHome) =
       handleShare (some "u") "p1" .success sampleHome) :=
  ⟨by decide,
   rollback_restores_precall_state (some "u") "p1" .errorResult sampleHome (by decide)⟩

/-- C2: when a second tap on the same post is issued after the first
tap has applied its synchronous optimistic update but before its
write resolves, the
second tap is absorbed by the membership guard — it issues no durable
write, changes no state and reports the no-op outcome — so the pair of
taps nets exactly one counter increment and leaves the post present
exactly once in the liked set. -/
theorem double_tap_single_increment (u postId : String) (res : WriteResult)
    (s : HomeState) (h : postId ∉ s.userLikedPosts) :
    handleLikeIssuesWrite (some u) postId (handleLikePre (some u) postId s) = false ∧
    handleLike (some u) postId res (handleLikePre (some u) postId s) =
      handleLikePre (some u) postId s ∧
    handleLikeOutcome (some u) postId res (handleLikePre (some u) postId s) =
      .alreadyDone ∧
    handleLike (some u) postId .success s = applyLikeOptimistic postId s ∧
    (applyLikeOptimistic postId s).userLikedPosts.val.count postId = 1 ∧
    (applyLikeOptimistic postId s).posts =
      s.posts.map fun p =>
        if p.id = postId then { p with likes_count := p.likes_count + 1 } else p := by
  have hguard : likeGuardPasses (some u) postId s = true := by
    simp [likeGuardPasses, h]
  have hpre : handleLikePre (some u) postId s = applyLikeOptimistic postId s := by
    simp [handleLikePre, hguard]
  have hmem : postId ∈ (applyLikeOptimistic postId s).userLikedPosts := by
    simp [applyLikeOptimistic]
  have hguard2 : likeGuardPasses (some u) postId (applyLikeOptimistic postId s) = false := by
    simp [likeGuardPasses, hmem]
  refine ⟨?_, ?_, ?_, ?_, ?_, rfl⟩
  · rw [hpre]
    simpa [handleLikeIssuesWrite] using hguard2
  · rw [hpre]
    simp [handleLike, hguard2]
  · rw [hpre]
    simp [handleLikeOutcome, hmem]
  · simp [handleLike, hguard]
  · exact Multiset.count_eq_one_of_mem
      ((insert postId s.userLikedPosts).nodup) (Finset.mem_def.mp (Finset.mem_insert_self _ _))

/-- Witness for the double-tap theorem at a concrete input. -/
theorem double_tap_single_increment_witness :
    ("p1" ∉ sampleHome.userLikedPosts) ∧
    (handleLikeIssuesWrite (some "u") "p1" (handleLikePre (some "u") "p1" sampleHome) = false ∧
     handleLike (some "u") "p1" .success (handleLikePre (some "u") "p1" sampleHome) =
       handleLikePre (some "u") "p1" sampleHome ∧
     handleLikeOutcome (some "u") "p1" .success (handleLikePre (some "u") "p1" sampleHome) =
       .alreadyDone ∧
     handleLike (some "u") "p1" .success sampleHome = applyLikeOptimistic "p1" sampleHome ∧
     (applyLikeOptimistic "p1" sampleHome).userLikedPosts.val.count "p1" = 1 ∧
     (applyLikeOptimistic "p1" sampleHome).posts =
       sampleHome.posts.map fun p =>
         if p.id = "p1" then { p with likes_count := p.likes_count + 1 } else p) :=
  ⟨by decide, double_tap_single_increment "u" "p1" .success sampleHome (by decide)⟩

/-- C5: the ranking window filter keeps exactly the candidate posts
with created_at ≥ now - windowDays, where windowDays ranges over
{1, 7, 30}; in particular a post created 10 days ago is excluded for
windowDays = 7 and included for windowDays = 30. -/
theorem window_filter_spec (now : Int) (tr : TimeRange) (posts : List Post) (p : Post) :
    (p ∈ windowFilter now (daysAgo tr) posts ↔
      p ∈ posts ∧ now - daysAgo tr ≤ p.created_at) ∧
    (daysAgo TimeRange.day = 1 ∧ daysAgo TimeRange.week = 7 ∧
      daysAgo TimeRange.month = 30) ∧
    tenDayOldPost now ∉ windowFilter now (daysAgo .week) [tenDayOldPost now] ∧
    tenDayOldPost now ∈ windowFilter now (daysAgo .month) [tenDayOldPost now] := by
  refine ⟨?_, ⟨rfl, rfl, rfl⟩, ?_, ?_⟩
  · simp [windowFilter, List.mem_filter]
  · simp only [windowFilter, daysAgo, tenDayOldPost, List.mem_filter]
    simp
    omega
  · simp only [windowFilter, daysAgo, tenDayOldPost, List.mem_filter]
    simp
    omega

/-- Witness instantiating the window-filter theorem concretely. -/
theorem window_filter_spec_witness :
    (samplePost ∈ windowFilter 0 (daysAgo .week) [samplePost] ↔
      samplePost ∈ [samplePost] ∧ (0 : Int) - daysAgo .week ≤ samplePost.created_at) ∧
    (daysAgo TimeRange.day = 1 ∧ daysAgo TimeRange.week = 7 ∧
      daysAgo TimeRange.month = 30) ∧
    tenDayOldPost 0 ∉ windowFilter 0 (daysAgo .week) [tenDayOldPost 0] ∧
    tenDayOldPost 0 ∈ windowFilter 0 (daysAgo .month) [tenDayOldPost 0] :=
  window_filter_spec 0 .week [samplePost] samplePost

/-- C8: with no authenticated actor identity, every toggle aborts
immediately with the unauthenticated outcome: local state is completely
unchanged and no durable write is issued, on every screen. -/
theorem unauthenticated_aborts_before_mutation (postId : String) (res : WriteResult)
    (s : HomeState) (t : TrendingState) (q : SearchState) (b : BookmarkState)
    (confirm : Bool) :
    handleLikeOutcome none postId res s = .unauthenticated ∧
    handleLike none postId res s = s ∧
    handleLikeIssuesWrite none postId s = false ∧
    handleShareOutcome none postId res s = .unauthenticated ∧
    handleShare none postId res s = s ∧
    handleShareIssuesWrite none postId s = false ∧
    searchHandleLikeOutcome none postId res q = .unauthenticated ∧
    searchHandleLike none postId res q = q ∧
    trendHandleLikeOutcome none postId res t = .unauthenticated ∧
    trendHandleLike none postId res t = t ∧
    removeBookmark none confirm postId res b = b ∧
    removeBookmarkIssuesWrite none confirm = false := by
  refine ⟨rfl, ?_, rfl, rfl, ?_, rfl, rfl, ?_, rfl, ?_, rfl, rfl⟩
  · simp [handleLike, likeGuardPasses]
  · simp [handleShare, shareGuardPasses]
  · simp [searchHandleLike]
  · simp [trendHandleLike]

/-- Witness instantiating the unauthenticated-abort theorem. -/
theorem unauthenticated_aborts_before_mutation_witness :
    handleLikeOutcome none "p1" .success sampleHome = .unauthenticated ∧
    handleLike none "p1" .success sampleHome = sampleHome ∧
    handleLikeIssuesWrite none "p1" sampleHome = false ∧
    handleShareOutcome none "p1" .success sampleHome = .unauthenticated ∧
    handleShare none "p1" .success sampleHome = sampleHome ∧
    handleShareIssuesWrite none "p1" sampleHome = false ∧
    searchHandleLikeOutcome none "p1" .success sampleSearch = .unauthenticated ∧
    searchHandleLike none "p1" .success sampleSearch = sampleSearch ∧
    trendHandleLikeOutcome none "p1" .success sampleTrending = .unauthenticated ∧
    trendHandleLike none "p1" .success sampleTrending = sampleTrending ∧
    removeBookmark none true "p1" .success sampleBookmarks = sampleBookmarks ∧
    removeBookmarkIssuesWrite none true = false :=
  unauthenticated_aborts_before_mutation "p1" .success sampleHome sampleTrending
    sampleSearch sampleBookmarks true

/-- C9: the ranking computation is a pure, deterministic function of
the candidate list and the selected window: two runs on equal inputs
return identical ordered sequences. -/
theorem ranking_deterministic (now now2 : Int) (tr tr2 : TimeRange)
    (posts posts2 : List Post)
    (hn : now = now2) (ht : tr = tr2) (hp : posts = posts2) :
    fetchTrendingRank now tr posts = fetchTrendingRank now2 tr2 posts2 := by
  rw [hn, ht, hp]

/-- Witness running the determinism theorem on a concrete input. -/
theorem ranking_deterministic_witness :
    fetchTrendingRank 100 .week [examplePostA, examplePostB] =
      fetchTrendingRank 100 .week [examplePostA, examplePostB] :=
  ranking_deterministic 100 100 .week .week [examplePostA, examplePostB]
    [examplePostA, examplePostB] rfl rfl rfl

/-- C3: every post in the ranking output carries the fixed-weight score
likes*3 + replies*2 + shares*5, and on the example posts
A(10,2,1), B(2,0,10), C(0,0,0) the scores are 39, 56, 0 and the output
order is [B, A, C]. -/
theorem ranking_score_formula (now : Int) (tr : TimeRange) (candidates : List Post)
    (p : Post) (hp : p ∈ fetchTrendingRank now tr candidates) :
    p.engagement_score =
      p.likes_count * 3 + p.replies_count * 2 + p.shares_count * 5 ∧
    (fetchTrendingRank 100 .week [examplePostA, examplePostB, examplePostC]).map
      (fun q => (q.id, q.engagement_score)) = [("B", 56), ("A", 39), ("C", 0)] := by
  constructor
  · simp only [fetchTrendingRank] at hp
    have h1 : p ∈ sortByEngagement (scorePosts (windowFilter now (daysAgo tr) candidates)) :=
      List.take_subset _ _ hp
    have h2 : p ∈ scorePosts (windowFilter now (daysAgo tr) candidates) := by
      simpa [sortByEngagement, List.mem_insertionSort] using h1
    simp only [scorePosts, List.mem_map] at h2
    obtain ⟨q, hq, rfl⟩ := h2
    simp [engagementScore]
  · decide

/-- Witness applying the score-formula theorem to the scored example
post B, a member of the concrete ranking output. -/
theorem ranking_score_formula_witness :
    (scoredExampleB ∈
      fetchTrendingRank 100 .week [examplePostA, examplePostB, examplePostC]) ∧
    (scoredExampleB.engagement_score =
      scoredExampleB.likes_count * 3 + scoredExampleB.replies_count * 2 +
        scoredExampleB.shares_count * 5 ∧
    (fetchTrendingRank 100 .week [examplePostA, examplePostB, examplePostC]).map
      (fun q => (q.id, q.engagement_score)) = [("B", 56), ("A", 39), ("C", 0)]) :=
  ⟨by decide,
   ranking_score_formula 100 .week [examplePostA, examplePostB, examplePostC]
     scoredExampleB (by decide)⟩

/-- C4: the ranking output is sorted by non-increasing engagement
score, posts with equal scores keep their arrival order (stable sort),
and `.slice(0, 20)` truncates 25 qualifying posts to exactly 20. -/
theorem ranking_sorted_stable_truncated (now : Int) (tr : TimeRange)
    (candidates : List Post) (a b : Post)
    (heq : a.engagement_score = b.engagement_score)
    (hsub : List.Sublist [a, b] (scorePosts (windowFilter now (daysAgo tr) candidates)))
    (h25 : (windowFilter now (daysAgo tr) candidates).length = 25) :
    (fetchTrendingRank now tr candidates).Sorted trendGE ∧
    List.Sublist [a, b]
      (sortByEngagement (scorePosts (windowFilter now (daysAgo tr) candidates))) ∧
    (fetchTrendingRank now tr candidates).length = 20 := by
  refine ⟨?_, ?_, ?_⟩
  · exact List.Pairwise.sublist (List.take_sublist _ _)
      (List.sorted_insertionSort trendGE _)
  · exact List.pair_sublist_insertionSort heq.ge hsub
  · have hlen : (scorePosts (windowFilter now (daysAgo tr) candidates)).length = 25 := by
      simp [scorePosts, h25]
    simp [fetchTrendingRank, sortByEngagement, List.length_take,
      List.length_insertionSort, hlen]

/-- Witness for the sort/stability/truncation theorem: 25 qualifying
candidates whose first two posts are distinct but tied at score 5. -/
theorem ranking_sorted_stable_truncated_witness :
    (scoredTiedA.engagement_score = scoredTiedB.engagement_score) ∧
    ((windowFilter 100 (daysAgo .week) qualifying25).length = 25) ∧
    ((fetchTrendingRank 100 .week qualifying25).Sorted trendGE ∧
     List.Sublist [scoredTiedA, scoredTiedB]
       (sortByEngagement (scorePosts (windowFilter 100 (daysAgo .week) qualifying25))) ∧
     (fetchTrendingRank 100 .week qualifying25).length = 20) := by
  have he : scorePosts (windowFilter 100 (daysAgo .week) qualifying25) =
      scoredTiedA :: scoredTiedB ::
        List.replicate 23 { fillerPost with engagement_score := 6 } := by
    decide
  have hsub : List.Sublist [scoredTiedA, scoredTiedB]
      (scorePosts (windowFilter 100 (daysAgo .week) qualifying25)) := by
    rw [he]
    exact List.Sublist.cons₂ _ (List.Sublist.cons₂ _ (List.nil_sublist _))
  exact ⟨rfl, by decide,
    ranking_sorted_stable_truncated 100 .week qualifying25 scoredTiedA scoredTiedB
      rfl hsub (by decide)⟩

/-- C6 counterexample: on the trending screen a thrown exception during
the durable write does not roll back the optimistic like (the catch
block only logs), so the claim that every kind of failure triggers the
same rollback as an error result fails at this concrete input. -/
theorem uniform_failure_rollback_cex :
    trendHandleLike (some "u") "p1" .thrown sampleTrending ≠ sampleTrending := by
  decide

/-- C6 amended: failure handling is uniform per screen, not globally —
the feed handleLike/handleShare roll back on both an error result and
a thrown exception, while the trending and search handlers roll back
only on an error result and leave the optimistic mutation in place when
the write throws. -/
theorem failure_rollback_per_screen (uid : Option String) (postId : String)
    (s : HomeState) (t : TrendingState) (q : SearchState) :
    handleLike uid postId .errorResult s = s ∧
    handleLike uid postId .thrown s = s ∧
    handleShare uid postId .errorResult s = s ∧
    handleShare uid postId .thrown s = s ∧
    trendHandleLike uid postId .errorResult t = t ∧
    trendHandleLike uid postId .thrown t =
      (if uid.isSome && !(postId ∈ t.userLikedPosts) then
        applyTrendLikeOptimistic postId t else t) ∧
    searchHandleLike uid postId .errorResult q = q ∧
    searchHandleShare uid postId .errorResult q = q ∧
    searchHandleLike uid postId .thrown q =
      (if uid.isSome && !(postId ∈ q.userLikedPosts) then
        { q with userLikedPosts := insert postId q.userLikedPosts,
                 filteredPosts := bumpLikes postId 1 q.filteredPosts } else q) ∧
    searchHandleShare uid postId .thrown q =
      (if uid.isSome && !(postId ∈ q.userSharedPosts) then
        { q with userSharedPosts := insert postId q.userSharedPosts,
                 filteredPosts := bumpShares postId 1 q.filteredPosts } else q) := by
  refine ⟨handleLike_fail uid postId _ s (by decide),
    handleLike_fail uid postId _ s (by decide),
    handleShare_fail uid postId _ s (by decide),
    handleShare_fail uid postId _ s (by decide),
    trendHandleLike_error uid postId t, ?_,
    searchHandleLike_error uid postId q,
    searchHandleShare_error uid postId q, ?_, ?_⟩
  · by_cases hg : (uid.isSome && !(postId ∈ t.userLikedPosts)) = true <;>
      simp [trendHandleLike, hg]
  · by_cases hg : (uid.isSome && !(postId ∈ q.userLikedPosts)) = true <;>
      simp [searchHandleLike, hg]
  · by_cases hg : (uid.isSome && !(postId ∈ q.userSharedPosts)) = true <;>
      simp [searchHandleShare, hg]

/-- C7 counterexample: removeBookmark issues its durable delete while
the local bookmark list is still unchanged — the removal delta is not
applied before the write is issued (it is applied only after success),
refuting the claim for the unbookmark toggle at this concrete input. -/
theorem remove_bookmark_not_optimistic_cex :
    removeBookmarkIssuesWrite (some "u") true = true ∧
    removeBookmarkPre (some "u") true "p1" sampleBookmarks = sampleBookmarks ∧
    "p1" ∈ (removeBookmarkPre (some "u") true "p1" sampleBookmarks).bookmarkedPosts.map
      Post.id ∧
    removeBookmark (some "u") true "p1" .success sampleBookmarks ≠ sampleBookmarks := by
  decide

/-- C7 amended: the add toggles (like, share) apply their ±1 local
delta synchronously, so it is visible before the durable write is
issued; removeBookmark is the exception — no local change precedes its
durable delete, and the local removal is applied only on success. -/
theorem optimistic_delta_before_write (u postId : String) (s : HomeState)
    (uid : Option String) (confirm : Bool) (b : BookmarkState)
    (hl : postId ∉ s.userLikedPosts) (hs : postId ∉ s.userSharedPosts) :
    handleLikeIssuesWrite (some u) postId s = true ∧
    handleLikePre (some u) postId s = applyLikeOptimistic postId s ∧
    postId ∈ (handleLikePre (some u) postId s).userLikedPosts ∧
    handleShareIssuesWrite (some u) postId s = true ∧
    handleSharePre (some u) postId s = applyShareOptimistic postId s ∧
    postId ∈ (handleSharePre (some u) postId s).userSharedPosts ∧
    removeBookmarkPre uid confirm postId b = b ∧
    removeBookmark (some u) true postId .success b =
      { b with bookmarkedPosts := b.bookmarkedPosts.filter fun p => p.id ≠ postId } := by
  have hg1 : likeGuardPasses (some u) postId s = true := by
    simp [likeGuardPasses, hl]
  have hg2 : shareGuardPasses (some u) postId s = true := by
    simp [shareGuardPasses, hs]
  refine ⟨hg1, by simp [handleLikePre, hg1], ?_, hg2, by simp [handleSharePre, hg2],
    ?_, rfl, rfl⟩
  · simp [handleLikePre, hg1, applyLikeOptimistic]
  · simp [handleSharePre, hg2, applyShareOptimistic]

/-- Witness for the amended optimistic-visibility theorem. -/
theorem optimistic_delta_before_write_witness :
    ("p1" ∉ sampleHome.userLikedPosts) ∧ ("p1" ∉ sampleHome.userSharedPosts) ∧
    (handleLikeIssuesWrite (some "u") "p1" sampleHome = true ∧
     handleLikePre (some "u") "p1" sampleHome = applyLikeOptimistic "p1" sampleHome ∧
     "p1" ∈ (handleLikePre (some "u") "p1" sampleHome).userLikedPosts ∧
     handleShareIssuesWrite (some "u") "p1" sampleHome = true ∧
     handleSharePre (some "u") "p1" sampleHome = applyShareOptimistic "p1" sampleHome ∧
     "p1" ∈ (handleSharePre (some "u") "p1" sampleHome).userSharedPosts ∧
     removeBookmarkPre (some "u") true "p1" sampleBookmarks = sampleBookmarks ∧
     removeBookmark (some "u") true "p1" .success sampleBookmarks =
       { sampleBookmarks with bookmarkedPosts :=
           sampleBookmarks.bookmarkedPosts.filter fun p => p.id ≠ "p1" }) :=
  ⟨by decide, by decide,
   optimistic_delta_before_write "u" "p1" sampleHome (some "u") true sampleBookmarks
     (by decide) (by decide)⟩

/-- C10: a trending-screen like and its rollback adjust likes_count by
±1 and engagement_score by ±3 together on the targeted post only, so
the fixed-weight score invariant holds for every displayed post after
the handler finishes, whatever the write outcome, and every
non-targeted post is left unchanged. -/
theorem trend_like_preserves_score_invariant (uid : Option String) (postId : String)
    (res : WriteResult) (s : TrendingState)
    (hinv : scoreInvariant s.trendingPosts) :
    scoreInvariant (trendHandleLike uid postId res s).trendingPosts ∧
    List.Forall₂ (fun old new => old.id ≠ postId → new = old)
      s.trendingPosts (trendHandleLike uid postId res s).trendingPosts := by
  have hrefl : List.Forall₂ (fun old new => old.id ≠ postId → new = old)
      s.trendingPosts s.trendingPosts := by
    rw [List.forall₂_same]
    intro x _ _
    rfl
  by_cases hg : (uid.isSome && !(postId ∈ s.userLikedPosts)) = true
  · cases res with
    | success =>
        have heq : trendHandleLike uid postId .success s =
            applyTrendLikeOptimistic postId s := by
          simp [trendHandleLike, hg]
        rw [heq]
        exact applyTrend_invariant postId s hinv
    | errorResult =>
        rw [trendHandleLike_error uid postId s]
        exact ⟨hinv, hrefl⟩
    | thrown =>
        have heq : trendHandleLike uid postId .thrown s =
            applyTrendLikeOptimistic postId s := by
          simp [trendHandleLike, hg]
        rw [heq]
        exact applyTrend_invariant postId s hinv
  · have heq : trendHandleLike uid postId res s = s := by
      simp [trendHandleLike, hg]
    rw [heq]
    exact ⟨hinv, hrefl⟩

/-- Witness for the invariant-preservation theorem at a concrete
trending state satisfying the invariant. -/
theorem trend_like_preserves_score_invariant_witness :
    scoreInvariant sampleTrending.trendingPosts ∧
    (scoreInvariant
       (trendHandleLike (some "u") "p1" .errorResult sampleTrending).trendingPosts ∧
     List.Forall₂ (fun old new => old.id ≠ "p1" → new = old)
       sampleTrending.trendingPosts
       (trendHandleLike (some "u") "p1" .errorResult sampleTrending).trendingPosts) :=
  ⟨by decide,
   trend_like_preserves_score_invariant (some "u") "p1" .errorResult sampleTrending
     (by decide)⟩

end Comptalk
